import Mathlib

/-!
Verification of the vendor resolution and installation subsystem of couchapp
(`src/couchapp/vendor.py`).  The Python code is shallowly embedded: JSON
metadata objects and Python dicts become association lists over strings,
filesystem side effects become an explicit effect trace, the persistent
`<app_dir>/vendor` directory becomes an explicit state value, and exceptions
become `Except` results.  Collaborator calls (`ui.deltree`, `ui.write_json`,
`shutil.copy`, the fetch plugins) are treated as primitive effects; the
control flow, branch conditions, messages and name resolution of
`vendor.py` itself are transcribed line by line.  In particular the
snapshot's own name-resolution slips (`self.find_vendor` at line 118, the
unbound `p` at line 125, the unbound `dest1` at line 216, `self.ui.logget`
at line 211) are modelled faithfully as Python runtime errors.
-/

set_option linter.unusedVariables false

/-- Python dicts and JSON objects with string keys: an association list kept
key-unique by `mset`.  Values are modelled as strings, which covers every key
the vendor code inspects ("name", "fetch_uri"). -/
abbrev Dict := List (String × String)

/-- `d.get(k)` / `d[k]`: value at the first occurrence of key `k`. -/
def mgetOpt : Dict → String → Option String
  | [], _ => none
  | (a, b) :: t, k => if a = k then some b else mgetOpt t k

/-- Python `d.get(k, default)`. -/
def mgetD (d : Dict) (k dflt : String) : String :=
  (mgetOpt d k).getD dflt

/-- Python `d[k] = v`: overwrite the first occurrence of `k`, or append. -/
def mset : Dict → String → String → Dict
  | [], k, v => [(k, v)]
  | (a, b) :: t, k, v => if a = k then (a, v) :: t else (a, b) :: mset t k v

/-- Python `d.update(u)`: assign every pair of `u` into `d`, in order. -/
def dict_update (d u : Dict) : Dict :=
  u.foldl (fun acc kv => mset acc kv.1 kv.2) d

/-- Python runtime exceptions raised by the vendor code.  `VendorError` is the
single error class `couchapp.errors.VendorError` (its module is not part of
this snapshot; it is a plain `Exception` subclass carrying a message).  The
`attributeError`, `nameError` and `unboundLocalError` constructors model the
corresponding Python name-resolution failures; `osError` models a failure
raised by a collaborator call such as `ui.write_json`. -/
inductive VErr where
  | vendorError (msg : String)
  | attributeError (attr : String)
  | nameError (x : String)
  | unboundLocalError (x : String)
  | osError (msg : String)
deriving DecidableEq

/-- Filesystem and logging side effects performed by the vendor code, in
program order.  `tempdirAlloc` is `_tempdir()` (lines 33-36: `mkstemp` then
`unlink`, returning a fresh unused name); `fetchRun` is the invocation of the
fetch plugin; the rest are `os.unlink`, `ui.deltree`, `os.makedirs`,
`shutil.copy`, `ui.write_json`, `logger.error` and `logger.info`. -/
inductive VEff where
  | tempdirAlloc (p : String)
  | fetchRun (uri p : String)
  | unlink (p : String)
  | deltree (p : String)
  | makedirs (p : String)
  | copy (src dst : String)
  | writeJson (p : String) (m : Dict)
  | logError (msg : String)
  | logInfo (msg : String)
deriving DecidableEq

/-- `os.path.join` for the two-argument uses in vendor.py. -/
def pjoin (a b : String) : String := a ++ "/" ++ b

/-- Characters preceding the first occurrence of the separator "://" (all of
them when the separator never occurs). -/
def takeBeforeSep : List Char → List Char
  | [] => []
  | c :: rest =>
      if c = ':' ∧ rest.take 2 = ['/', '/'] then []
      else c :: takeBeforeSep rest

/-- Line 97: the scheme of a URI is the substring before the first "://"
(`uri.split("://")[0]`; Python split always yields a first element, the whole
string when the separator is absent). -/
def schemeOf (uri : String) : String :=
  String.mk (takeBeforeSep uri.toList)

/-- Lines 96-101: `find_handler` extracts the scheme and looks it up in
`self.scheme`; an unregistered scheme raises `VendorError` (message spelling
as in the source).  `registered` stands for the keys of the `self.scheme`
table that `load_vendors` builds from the external handler modules; the
handler itself is opaque, so resolution returns the scheme. -/
def find_handler (registered : List String) (uri : String) : Except VErr String :=
  if schemeOf uri ∈ registered then .ok (schemeOf uri)
  else .error (.vendorError ("unkonw vendor url scheme: " ++ uri))

/-- One immediate subdirectory of the staging directory as populated by a
fetch plugin: its name, whether it contains a `metadata.json` file, and that
file's contents. -/
structure Staged where
  name : String
  hasMeta : Bool
  meta : Dict
deriving DecidableEq

/-- A bundle record as built by `fetch_vendor`: staged directory name, staged
path, and metadata dict. -/
structure VBundle where
  name : String
  path : String
  meta : Dict
deriving DecidableEq

/-- Python name lookup in a local environment: a missing name raises
`NameError`. -/
def pyname (env : Dict) (x : String) : Except VErr String :=
  match mgetOpt env x with
  | some s => .ok s
  | none => .error (.nameError x)

/-- The local names bound in the body of `fetch_vendor` when the scan loop of
lines 124-133 runs (parameters `self`, `uri`, plus `fetchfun`, `path`,
`vendors` and the loop variable `name`).  The name `p` is not among them. -/
def fetch_locals (path uri nm : String) : Dict :=
  [("self", "Vendor"), ("uri", uri), ("fetchfun", "fetchfun"),
   ("path", path), ("vendors", "vendors"), ("name", nm)]

/-- Lines 130-133 of `fetch_vendor`: for a staging subdirectory that holds a
metadata file, read the metadata, delete the staged metadata file, store the
fetch URI under the key "fetch_uri" (`meta["fetch_uri"] = uri`), and emit the
record `(name, vpath, meta)`. -/
def scan_entry (uri nm vpath : String) (meta : Dict) : VBundle :=
  { name := nm, path := vpath, meta := mset meta "fetch_uri" uri }

/-- Lines 123-133 of `fetch_vendor`: the scan over `os.listdir(path)`.  The
loop body's first expression is `os.path.join(path, p)` (line 125), and `p`
is not a name bound anywhere in the function (the loop variable is `name`),
so the first iteration over a nonempty listing raises `NameError: p`.  The
rest of the body (lines 126-133) is transcribed below but is unreachable at
run time. -/
def scan_vendors (path uri : String) : List Staged → Except VErr (List VBundle) × List VEff
  | [] => (.ok [], [])
  | st :: rest =>
      match pyname (fetch_locals path uri st.name) "p" with
      | .error e => (.error e, [])
      | .ok p =>
          let vpath := pjoin path p
          let metaf := pjoin vpath "metadata.json"
          if st.hasMeta then
            match scan_vendors path uri rest with
            | (.ok bs, t) => (.ok (scan_entry uri st.name vpath st.meta :: bs), .unlink metaf :: t)
            | (.error e, t) => (.error e, t)
          else scan_vendors path uri rest

/-- Lines 123-139 of `fetch_vendor`: run the scan, then, if no vendor record
was produced, recursively delete the staging directory and raise
`VendorError` (message spelling as in the source); otherwise return the
records together with the staging path. -/
def fetch_finish (path uri : String) (listing : List Staged) :
    Except VErr (List VBundle × String) × List VEff :=
  match scan_vendors path uri listing with
  | (.error e, t) => (.error e, t)
  | (.ok vendors, t) =>
      if vendors.isEmpty then
        (.error (.vendorError "Invalid vendor, medata not found."), t ++ [.deltree path])
      else (.ok (vendors, path), t)

/-- The attributes an instance of class `Vendor` actually has (its methods,
lines 42-233, and the fields set in `__init__`).  There is no `find_vendor`
among them: the resolver method is named `find_handler`. -/
def vendor_attrs : List String :=
  ["ui", "vendor_handlers", "scheme", "vendors", "load_vendors", "find_handler",
   "installed_vendors", "fetch_vendor", "install", "update"]

/-- Python attribute lookup `self.<a>` on a `Vendor` instance: a missing
attribute raises `AttributeError`. -/
def getattr_vendor (a : String) : Except VErr String :=
  if a ∈ vendor_attrs then .ok a else .error (.attributeError a)

/-- Lines 114-139: `fetch_vendor`.  Line 118 evaluates `self.find_vendor`;
the class defines `find_handler` (line 96) but no attribute `find_vendor`, so
the attribute lookup raises `AttributeError` before `_tempdir()` (line 120)
allocates a staging name and before any handler runs.  The remainder of the
function (lines 119-139) is transcribed in the second branch, which is
unreachable at run time: allocate the staging name `tmp`, run the fetch
plugin on it (`listing` is what the plugin populated), then scan and
validate. -/
def fetch_vendor (uri tmp : String) (listing : List Staged) :
    Except VErr (List VBundle × String) × List VEff :=
  match getattr_vendor "find_vendor" with
  | .error e => (.error e, [])
  | .ok _ =>
      match fetch_finish tmp uri listing with
      | (r, t) => (r, .tempdirAlloc tmp :: .fetchRun uri tmp :: t)

/-- The contents of the persistent vendor directory `<app_dir>/vendor`: one
entry per immediate subdirectory, in listing order, holding the subdirectory
name, an opaque token for its tree contents (the staged path it was copied
from, or an arbitrary token for pre-existing trees), and the contents of its
`metadata.json` file when that file exists. -/
abbrev VDir := List (String × String × Option Dict)

/-- Contents (tree token and metadata file) of the subdirectory named `k`. -/
def vlookup : VDir → String → Option (String × Option Dict)
  | [], _ => none
  | (n, c, mf) :: t, k => if n = k then some (c, mf) else vlookup t k

/-- `os.path.isdir(os.path.join(vendordir, k))`. -/
def visdir (v : VDir) (k : String) : Bool :=
  (vlookup v k).isSome

/-- `ui.deltree` on the subdirectory named `k`. -/
def vdel : VDir → String → VDir
  | [], _ => []
  | (n, c, mf) :: t, k => if n = k then vdel t k else (n, c, mf) :: vdel t k

/-- `shutil.copy(path, dest)`, treated as the collaborator-level "copy the
staged bundle into place": the destination now holds the staged tree `c`.
The staged copy's own `metadata.json` was already unlinked at fetch time
(line 131), so the new entry carries no metadata file until `write_json`
runs. -/
def vcopy (v : VDir) (k c : String) : VDir :=
  v ++ [(k, c, none)]

/-- `ui.write_json(os.path.join(dest, "metadata.json"), m)`. -/
def vwrite : VDir → String → Dict → VDir
  | [], _, _ => []
  | (n, c, mf) :: t, k, m =>
      if n = k then (n, c, some m) :: vwrite t k m else (n, c, mf) :: vwrite t k m

/-- `ui.read_json` of the metadata file of subdirectory `k` (callers only use
it on installed entries, where the file exists). -/
def vmeta (v : VDir) (k : String) : Dict :=
  match vlookup v k with
  | some (_, some m) => m
  | _ => []

/-- Lines 103-112: `installed_vendors` lists the subdirectory names whose
`metadata.json` exists; anything else is skipped. -/
def installed_vendors : VDir → List String
  | [] => []
  | (n, _, mf) :: t => if mf.isSome then n :: installed_vendors t else installed_vendors t

/-- Line 151: `name = meta.get('name', name)` — the destination name of a
bundle is the `name` key of its metadata when present, else its staged
directory name. -/
def destName (b : VBundle) : String :=
  mgetD b.meta "name" b.name

/-- Lines 150-167: the reconciliation loop of `install` over the fetched
bundle records.  State `v` is the vendor directory; the result is the raised
exception (if any), the final vendor directory, and the effect trace.
`wfail` is the collaborator-failure oracle for `ui.write_json`: when it
answers `true` the write raises an OSError, which propagates (there is no
`try` in the source).  Per bundle: when the destination exists (line 154)
and `force` is set, delete it, copy the staged tree, rewrite the metadata
file and log at info level when `ui.verbose >= 1` (lines 156-160); in both
force cases log the "already installed" error (line 161) and continue; when
the destination is new, copy the staged tree, write its metadata file and
log at info level when `ui.verbose >= 1` (lines 164-167).  The info message
is the source's literal `"%s installed in vendors"` (the `%` formatting is
never applied at lines 160 and 167). -/
def install_loop (vendordir : String) (force : Bool) (verbose : Nat)
    (wfail : String → Dict → Bool) :
    List VBundle → VDir → Except VErr Unit × VDir × List VEff
  | [], v => (.ok (), v, [])
  | b :: rest, v =>
      let nm := destName b
      let dest := pjoin vendordir nm
      let metaf := pjoin dest "metadata.json"
      if visdir v nm then
        if force then
          let v1 := vcopy (vdel v nm) nm b.path
          if wfail metaf b.meta then
            (.error (.osError ("write_json " ++ metaf)), v1, [.deltree dest, .copy b.path dest])
          else
            let v2 := vwrite v1 nm b.meta
            let t1 : List VEff := [.deltree dest, .copy b.path dest, .writeJson metaf b.meta]
            let t2 := t1 ++ (if verbose ≥ 1 then [.logInfo "%s installed in vendors"] else [])
            let t3 := t2 ++ [.logError ("vendor: " ++ nm ++ " already installed")]
            let r := install_loop vendordir force verbose wfail rest v2
            (r.1, r.2.1, t3 ++ r.2.2)
        else
          let r := install_loop vendordir force verbose wfail rest v
          (r.1, r.2.1, .logError ("vendor: " ++ nm ++ " already installed") :: r.2.2)
      else
        let v1 := vcopy v nm b.path
        if wfail metaf b.meta then
          (.error (.osError ("write_json " ++ metaf)), v1, [.copy b.path dest])
        else
          let v2 := vwrite v1 nm b.meta
          let t1 : List VEff := [.copy b.path dest, .writeJson metaf b.meta]
          let t2 := t1 ++ (if verbose ≥ 1 then [.logInfo "%s installed in vendors"] else [])
          let r := install_loop vendordir force verbose wfail rest v2
          (r.1, r.2.1, t2 ++ r.2.2)

/-- Lines 141-169: `install`.  `vde` is whether `<app_dir>/vendor` already
exists (lines 146-147 create it otherwise); `fetched` is the outcome of the
`fetch_vendor` call of line 149 (an exception there propagates before any
reconciliation).  On normal completion of the loop the staging directory is
deleted (line 168) and 0 is returned (line 169); an exception raised inside
the loop propagates without that deletion — there is no `try`/`finally`. -/
def install (appdir : String) (force : Bool) (verbose : Nat)
    (wfail : String → Dict → Bool)
    (fetched : Except VErr (List VBundle × String)) (vde : Bool) (v : VDir) :
    Except VErr Nat × VDir × List VEff :=
  let vendordir := pjoin appdir "vendor"
  let pre : List VEff := if vde then [] else [.makedirs vendordir]
  match fetched with
  | .error e => (.error e, v, pre)
  | .ok (bs, temppath) =>
      match install_loop vendordir force verbose wfail bs v with
      | (.error e, v1, t) => (.error e, v1, pre ++ t)
      | (.ok _, v1, t) => (.ok 0, v1, pre ++ t ++ [.deltree temppath])

/-- Lines 187-196: the reconciliation loop of single-name `update`.  Bundles
whose staged name differs from the requested name are skipped (line 189);
at the first match the installed directory is deleted, the staged tree is
copied in, the metadata file is rewritten, "updated" is logged at info level
when `ui.verbose >= 1`, and the loop breaks (lines 191-196). -/
def upd_match (dest metaf nm : String) (verbose : Nat) :
    List VBundle → VDir → VDir × List VEff
  | [], v => (v, [])
  | b :: rest, v =>
      if nm ≠ b.name then upd_match dest metaf nm verbose rest v
      else
        let v1 := vwrite (vcopy (vdel v nm) nm b.path) nm b.meta
        let t : List VEff :=
          [.deltree dest, .copy b.path dest, .writeJson metaf b.meta]
            ++ (if verbose ≥ 1 then [.logInfo (nm ++ " updated in vendors")] else [])
        (v1, t)

/-- Lines 171-198: `update` with a name given.  The name must be installed
(lines 178-179), its persisted metadata must carry a nonempty `fetch_uri`
(lines 182-185; Python falsiness of the empty string), the recorded URI is
re-fetched (line 186, `fetch` is the outcome of `fetch_vendor` per URI), the
match loop runs, and the staging directory is deleted (line 198).  `vde` is
whether `<app_dir>/vendor` already exists (lines 174-175). -/
def update_single (appdir nm : String) (verbose : Nat)
    (fetch : String → Except VErr (List VBundle × String))
    (vde : Bool) (v : VDir) :
    Except VErr Nat × VDir × List VEff :=
  let vendordir := pjoin appdir "vendor"
  let pre : List VEff := if vde then [] else [.makedirs vendordir]
  if nm ∈ installed_vendors v then
    let dest := pjoin vendordir nm
    let metaf := pjoin dest "metadata.json"
    let meta := vmeta v nm
    let uri := mgetD meta "fetch_uri" ""
    if uri = "" then
      (.error (.vendorError ("Can\x27t update vendor `" ++ nm ++ "`: fetch_uri undefined.")), v, pre)
    else
      match fetch uri with
      | .error e => (.error e, v, pre)
      | .ok (bs, temppath) =>
          let r := upd_match dest metaf nm verbose bs v
          (.ok 0, r.1, pre ++ r.2 ++ [.deltree temppath])
  else
    (.error (.vendorError ("vendor `" ++ nm ++ "` doesn\x27t exist")), v, pre)

/-- Lines 215-231: the inner loop of bulk `update` over the bundles of one
fetch.  Its first statement (line 216) is `dest1 = os.path.join(vendordir,
dest1)`: the right-hand side reads `dest1`, which is a local variable (it is
the assignment's own target) with no value assigned yet, so the first
iteration raises `UnboundLocalError: dest1`; the rest of the body (lines
217-231) is unreachable.  An empty bundle list skips the loop. -/
def bulk_inner (vendordir : String) (force : Bool) (verbose : Nat)
    (v : VDir) (updated : List String) :
    List VBundle → Except VErr (VDir × List String × List VEff)
  | [] => .ok (v, updated, [])
  | _ :: _ => .error (.unboundLocalError "dest1")

/-- Lines 200-232: the outer loop of bulk `update` over the snapshot of
`installed_vendors` taken at line 201.  A vendor already in `updated` is
skipped (lines 202-203); a vendor whose metadata has no nonempty `fetch_uri`
is reported through `self.ui.logget.error` when `ui.verbose >= 1` — the ui
object has a `logger` attribute but no `logget`, so that report raises
`AttributeError` (line 211) — and is silently skipped otherwise (line 212);
otherwise its URI is re-fetched, the inner loop runs over the fetched
bundles, and the staging directory is deleted after the inner loop
(line 232).  An exception anywhere propagates, skipping that deletion. -/
def bulk_outer (vendordir : String) (force : Bool) (verbose : Nat)
    (fetch : String → Except VErr (List VBundle × String)) :
    List String → VDir → List String → Except VErr Unit × VDir × List VEff
  | [], v, _ => (.ok (), v, [])
  | vendor :: rest, v, updated =>
      if vendor ∈ updated then bulk_outer vendordir force verbose fetch rest v updated
      else
        let meta := vmeta v vendor
        let uri := mgetD meta "fetch_uri" ""
        if uri = "" then
          if verbose ≥ 1 then (.error (.attributeError "logget"), v, [])
          else bulk_outer vendordir force verbose fetch rest v updated
        else
          match fetch uri with
          | .error e => (.error e, v, [])
          | .ok (bs, temppath) =>
              match bulk_inner vendordir force verbose v updated bs with
              | .error e => (.error e, v, [])
              | .ok (v1, updated1, t) =>
                  let r := bulk_outer vendordir force verbose fetch rest v1 updated1
                  (r.1, r.2.1, t ++ [.deltree temppath] ++ r.2.2)

/-- Lines 171-175 and 199-233: `update` with no name — bulk mode.  `vde` is
whether `<app_dir>/vendor` already exists (lines 174-175); the outer loop
starts from an empty `updated` list (line 200) and returns 0 on normal
completion (line 233). -/
def update_bulk (appdir : String) (force : Bool) (verbose : Nat)
    (fetch : String → Except VErr (List VBundle × String))
    (vde : Bool) (v : VDir) :
    Except VErr Nat × VDir × List VEff :=
  let vendordir := pjoin appdir "vendor"
  let pre : List VEff := if vde then [] else [.makedirs vendordir]
  match bulk_outer vendordir force verbose fetch (installed_vendors v) v [] with
  | (.error e, v1, t) => (.error e, v1, pre ++ t)
  | (.ok _, v1, t) => (.ok 0, v1, pre ++ t)

/-- Lines 27-31: the module-level handler table. -/
def GLOBAL_VENDOR_HANDLERS : Dict :=
  [("couchdb", "couchapp.couchdbvendor"), ("git", "couchapp.gitvendor"),
   ("hg", "couchapp.hgvendor")]

/-- Lines 49-56 of `Vendor.__init__`: `vendor_handlers = GLOBAL_VENDOR_HANDLERS`
binds the module-level dict object itself (no copy is taken), and
`vendor_handlers.update(...)` then mutates that shared object in place when
the configuration carries a `vendor_handlers` entry.  The function returns
the pair (the instance's `self.vendor_handlers`, the module-level dict after
construction): in-place mutation makes the two components one and the same
object, so both are the merged table. -/
def vendor_init_handlers (g : Dict) (conf : Option Dict) : Dict × Dict :=
  match conf with
  | none => (g, g)
  | some u => (dict_update g u, dict_update g u)

/-- Whether an effect is an info-level log event. -/
def isLogInfo : VEff → Bool
  | .logInfo _ => true
  | _ => false

/-- Test fixture: a vendor directory with one installed vendor "a" whose
recorded source is "u1". -/
def exVDir : VDir := [("a", "c0", some [("fetch_uri", "u1")])]

/-- Test fixture: a fetch that, for the URI "u1", stages two bundles — one
named "b" and one named "a" — in the staging directory "tp". -/
def exFetch : String → Except VErr (List VBundle × String) :=
  fun u =>
    if u = "u1" then
      .ok ([{ name := "b", path := "st/b", meta := [] },
            { name := "a", path := "st/a", meta := [("fetch_uri", "u1")] }], "tp")
    else .error (.vendorError ("unkonw vendor url scheme: " ++ u))

/-- Test fixture: a vendor directory with one installed vendor "a" recording
the source "git://a". -/
def bulkVDir : VDir := [("a", "ca", some [("fetch_uri", "git://a")])]

/-- Test fixture: a fetch that, for the URI "git://a", stages one bundle
named "a" in the staging directory "tp". -/
def bulkFetch : String → Except VErr (List VBundle × String) :=
  fun u =>
    if u = "git://a" then
      .ok ([{ name := "a", path := "tp/a", meta := [("fetch_uri", "git://a")] }], "tp")
    else .error (.vendorError ("unkonw vendor url scheme: " ++ u))

theorem mgetOpt_mset_self (d : Dict) (k val : String) :
    mgetOpt (mset d k val) k = some val := by
  induction d with
  | nil => simp [mset, mgetOpt]
  | cons e t ih =>
      by_cases h : e.1 = k
      · simp [mset, mgetOpt, h]
      · simp [mset, mgetOpt, h, ih]

theorem vlookup_vcopy_ne (v : VDir) (k c n : String) (h : n ≠ k) :
    vlookup (vcopy v k c) n = vlookup v n := by
  have hkn : ¬ k = n := fun hh => h hh.symm
  induction v with
  | nil => simp [vcopy, vlookup, hkn]
  | cons e t ih =>
      obtain ⟨a, b, mf⟩ := e
      by_cases ha : a = n
      · simp [vcopy, vlookup, ha]
      · simpa [vcopy, vlookup, ha] using ih

theorem vlookup_vwrite_ne (v : VDir) (k n : String) (m : Dict) (h : n ≠ k) :
    vlookup (vwrite v k m) n = vlookup v n := by
  have hkn : ¬ k = n := fun hh => h hh.symm
  induction v with
  | nil => simp [vwrite, vlookup]
  | cons e t ih =>
      obtain ⟨a, b, mf⟩ := e
      by_cases hak : a = k
      · simp [vwrite, vlookup, hak, hkn, ih]
      · by_cases han : a = n
        · simp [vwrite, vlookup, hak, han, h]
        · simp [vwrite, vlookup, hak, han, ih]

theorem vlookup_write_copy_fresh (v : VDir) (k c : String) (m : Dict)
    (h : visdir v k = false) :
    vlookup (vwrite (vcopy v k c) k m) k = some (c, some m) := by
  induction v with
  | nil => simp [vcopy, vwrite, vlookup]
  | cons e t ih =>
      obtain ⟨a, b, mf⟩ := e
      have hak : ¬ a = k := by
        intro hh
        simp [visdir, vlookup, hh] at h
      have ht : visdir t k = false := by
        simpa [visdir, vlookup, hak] using h
      simpa [vcopy, vwrite, vlookup, hak] using ih ht

/-- C1: for a URI whose scheme has no registered handler the spec says the
fetch fails with the unknown-scheme error before a staging directory is
created.  The code does fail before any staging allocation, but with
`AttributeError`: line 118 of `fetch_vendor` reads `self.find_vendor`, an
attribute the `Vendor` class does not define (the resolver is
`find_handler`), so every fetch aborts there with an empty effect trace —
the scheme check of lines 96-101, which would raise the claimed
`VendorError`, is never reached. -/
theorem c1_unknown_scheme (uri tmp : String) (listing : List Staged) :
    fetch_vendor uri tmp listing = (.error (.attributeError "find_vendor"), []) ∧
    find_handler ["couchdb", "git", "hg"] "svn://example.org/repo" =
      .error (.vendorError "unkonw vendor url scheme: svn://example.org/repo") := by
  exact ⟨rfl, rfl⟩

/-- C2: the spec says a fetch whose staging directory contains no
metadata-bearing subdirectory raises the invalid-vendor error with the
staging directory removed.  That holds for an empty staging directory
(second conjunct), but for a nonempty one the scan of lines 123-133 raises
`NameError` at its first iteration — line 125 reads the unbound name `p`
instead of the loop variable `name` — before any metadata test, and the
staging directory is not deleted (first conjunct: no `deltree` effect). -/
theorem c2_no_metadata_scan :
    fetch_finish "/tmp/stage" "git://example.org/r"
        [{ name := "sub", hasMeta := false, meta := [] }] =
      (.error (.nameError "p"), []) ∧
    fetch_finish "/tmp/stage" "git://example.org/r" [] =
      (.error (.vendorError "Invalid vendor, medata not found."), [.deltree "/tmp/stage"]) := by
  exact ⟨rfl, rfl⟩

/-- C10: a `vendor_handlers` configuration entry given to one `Vendor`
construction is merged into the module-level `GLOBAL_VENDOR_HANDLERS` dict
in place (lines 50-53 bind and then mutate the shared object, taking no
copy), so a `Vendor` constructed later in the same process with no overrides
of its own still sees the override: its handler table, and the module global
it aliases, are exactly the previously merged table. -/
theorem c10_global_handlers_shared (s m : String) :
    mgetOpt (vendor_init_handlers
        (vendor_init_handlers GLOBAL_VENDOR_HANDLERS (some [(s, m)])).2 none).1 s = some m ∧
    (vendor_init_handlers
        (vendor_init_handlers GLOBAL_VENDOR_HANDLERS (some [(s, m)])).2 none).1 =
      (vendor_init_handlers GLOBAL_VENDOR_HANDLERS (some [(s, m)])).1 := by
  constructor
  · exact mgetOpt_mset_self GLOBAL_VENDOR_HANDLERS s m
  · rfl

theorem install_loop_ok (vendordir : String) (force : Bool) (verbose : Nat) :
    ∀ (bs : List VBundle) (v : VDir),
      (install_loop vendordir force verbose (fun _ _ => false) bs v).1 = .ok () := by
  intro bs
  induction bs with
  | nil => intro v; rfl
  | cons b rest ih =>
      intro v
      by_cases hd : visdir v (destName b) = true <;> by_cases hf : force = true <;>
        simp [install_loop, hd, hf, ih, Bool.not_eq_true] at * <;> simp [ih]

theorem install_loop_noforce_frame (vendordir : String) (verbose : Nat)
    (wfail : String → Dict → Bool) :
    ∀ (bs : List VBundle) (v : VDir) (n : String), visdir v n = true →
      vlookup (install_loop vendordir false verbose wfail bs v).2.1 n = vlookup v n := by
  intro bs
  induction bs with
  | nil => intro v n h; rfl
  | cons b rest ih =>
      intro v n h
      by_cases hd : visdir v (destName b) = true
      · simp only [install_loop, hd, if_true]
        exact ih v n h
      · have hd2 : visdir v (destName b) = false := by simpa using hd
        have hne : n ≠ destName b := by
          intro hh
          rw [hh, hd2] at h
          exact Bool.false_ne_true h
        by_cases hw : wfail (pjoin (pjoin vendordir (destName b)) "metadata.json") b.meta = true
        · simp only [install_loop, hd2, Bool.false_eq_true, if_false, hw, if_true]
          exact vlookup_vcopy_ne v (destName b) b.path n hne
        · have hw2 : wfail (pjoin (pjoin vendordir (destName b)) "metadata.json") b.meta = false := by
            simpa using hw
          have e1 : vlookup (vwrite (vcopy v (destName b) b.path) (destName b) b.meta) n
              = vlookup v n := by
            rw [vlookup_vwrite_ne _ _ _ _ hne, vlookup_vcopy_ne _ _ _ _ hne]
          have hv2 : visdir (vwrite (vcopy v (destName b) b.path) (destName b) b.meta) n = true := by
            unfold visdir
            rw [e1]
            exact h
          simp only [install_loop, hd2, Bool.false_eq_true, if_false, hw2]
          rw [ih _ n hv2, e1]

/-- C3: installing a bundle whose destination does not yet exist, from a
successful fetch (the bundle record is a `scan_entry`, so its metadata holds
`fetch_uri = uri` as set at line 132), ends with status 0 (line 169), the
destination entry present and carrying a metadata file whose `fetch_uri` key
equals the URI passed to install (lines 164-165), and the staging directory
deleted (line 168). -/
theorem c3_install_fresh (appdir uri nm vp tmp : String) (m : Dict) (v : VDir)
    (verbose : Nat) (vde : Bool)
    (hdest : visdir v (destName (scan_entry uri nm vp m)) = false) :
    (install appdir false verbose (fun _ _ => false)
        (.ok ([scan_entry uri nm vp m], tmp)) vde v).1 = .ok 0 ∧
    vlookup (install appdir false verbose (fun _ _ => false)
        (.ok ([scan_entry uri nm vp m], tmp)) vde v).2.1 (destName (scan_entry uri nm vp m)) =
      some (vp, some (mset m "fetch_uri" uri)) ∧
    mgetOpt (mset m "fetch_uri" uri) "fetch_uri" = some uri ∧
    VEff.deltree tmp ∈ (install appdir false verbose (fun _ _ => false)
        (.ok ([scan_entry uri nm vp m], tmp)) vde v).2.2 := by
  refine ⟨?_, ?_, mgetOpt_mset_self m "fetch_uri" uri, ?_⟩
  · simp [install, install_loop, hdest]
  · simp only [install, install_loop, hdest, Bool.false_eq_true, if_false]
    exact vlookup_write_copy_fresh v (destName (scan_entry uri nm vp m)) vp
      (mset m "fetch_uri" uri) hdest
  · simp [install, install_loop, hdest]

/-- Witness for C3 at a concrete input. -/
theorem c3_install_fresh_witness :
    (install "app" false 0 (fun _ _ => false)
        (.ok ([scan_entry "git://u" "n" "st/n" []], "tp")) true []).1 = .ok 0 ∧
    vlookup (install "app" false 0 (fun _ _ => false)
        (.ok ([scan_entry "git://u" "n" "st/n" []], "tp")) true []).2.1
        (destName (scan_entry "git://u" "n" "st/n" [])) =
      some ("st/n", some (mset [] "fetch_uri" "git://u")) ∧
    mgetOpt (mset [] "fetch_uri" "git://u") "fetch_uri" = some "git://u" ∧
    VEff.deltree "tp" ∈ (install "app" false 0 (fun _ _ => false)
        (.ok ([scan_entry "git://u" "n" "st/n" []], "tp")) true []).2.2 :=
  c3_install_fresh "app" "git://u" "n" "st/n" "tp" [] [] 0 true (by decide)

/-- C4: installing a bundle whose destination already exists with `force`
false leaves the result, the vendor directory and the remaining processing
exactly as if only the rest of the bundles were processed, except for one
additional "already installed" error signal (line 161), and every
pre-existing destination entry is left unchanged by the whole loop. -/
theorem c4_install_existing_noforce (vendordir : String) (verbose : Nat)
    (wfail : String → Dict → Bool) (b : VBundle) (rest : List VBundle) (v : VDir)
    (h : visdir v (destName b) = true) :
    (install_loop vendordir false verbose wfail (b :: rest) v).1 =
        (install_loop vendordir false verbose wfail rest v).1 ∧
    (install_loop vendordir false verbose wfail (b :: rest) v).2.1 =
        (install_loop vendordir false verbose wfail rest v).2.1 ∧
    (install_loop vendordir false verbose wfail (b :: rest) v).2.2 =
        VEff.logError ("vendor: " ++ destName b ++ " already installed")
          :: (install_loop vendordir false verbose wfail rest v).2.2 ∧
    ∀ n, visdir v n = true →
      vlookup (install_loop vendordir false verbose wfail (b :: rest) v).2.1 n = vlookup v n := by
  refine ⟨?_, ?_, ?_, ?_⟩
  · simp [install_loop, h]
  · simp [install_loop, h]
  · simp [install_loop, h]
  · exact fun n hn => install_loop_noforce_frame vendordir verbose wfail (b :: rest) v n hn

/-- Witness for C4 at a concrete input. -/
theorem c4_install_existing_noforce_witness :
    (install_loop "app/vendor" false 0 (fun _ _ => false)
        [{ name := "x", path := "st/x", meta := [] }] [("x", "old", some [])]).2.2 =
      VEff.logError ("vendor: " ++ destName { name := "x", path := "st/x", meta := ([] : Dict) }
          ++ " already installed")
        :: (install_loop "app/vendor" false 0 (fun _ _ => false) [] [("x", "old", some [])]).2.2 ∧
    vlookup (install_loop "app/vendor" false 0 (fun _ _ => false)
        [{ name := "x", path := "st/x", meta := [] }] [("x", "old", some [])]).2.1 "x" =
      vlookup [("x", "old", some [])] "x" :=
  ⟨(c4_install_existing_noforce "app/vendor" 0 (fun _ _ => false)
      { name := "x", path := "st/x", meta := [] } [] [("x", "old", some [])] (by decide)).2.2.1,
   (c4_install_existing_noforce "app/vendor" 0 (fun _ _ => false)
      { name := "x", path := "st/x", meta := [] } [] [("x", "old", some [])] (by decide)).2.2.2
     "x" (by decide)⟩

/-- C5 counterexample: with `ui.verbose = 0` (the default when no verbosity
was requested), a forced install over an existing destination performs the
overwrite and emits the conflict error but logs NO info-level "installed"
event — the log call at line 159-160 is guarded by `self.ui.verbose >= 1` —
so the claim, which asserts the info event unconditionally, fails at this
input.  The first conjunct is the complete effect trace; the second states
it contains no info-level event at all. -/
theorem c5_counterexample :
    (install "app" true 0 (fun _ _ => false)
        (.ok ([{ name := "x", path := "st/x", meta := [("fetch_uri", "u")] }], "tp")) true
        [("x", "old", some [("fetch_uri", "old")])]).2.2 =
      [VEff.deltree "app/vendor/x", VEff.copy "st/x" "app/vendor/x",
       VEff.writeJson "app/vendor/x/metadata.json" [("fetch_uri", "u")],
       VEff.logError "vendor: x already installed", VEff.deltree "tp"] ∧
    ((install "app" true 0 (fun _ _ => false)
        (.ok ([{ name := "x", path := "st/x", meta := [("fetch_uri", "u")] }], "tp")) true
        [("x", "old", some [("fetch_uri", "old")])]).2.2.all fun e => ! isLogInfo e) = true := by
  exact ⟨rfl, rfl⟩

/-- C5 (amended): installing a bundle whose destination already exists with
`force` true deletes the destination tree, copies the staged contents in,
rewrites the metadata file, logs the info-level "installed" event WHEN
`ui.verbose >= 1`, and still additionally emits the "already installed"
conflict error (lines 156-161), then continues with the remaining bundles. -/
theorem c5_install_existing_force (vendordir : String) (verbose : Nat)
    (wfail : String → Dict → Bool) (b : VBundle) (rest : List VBundle) (v : VDir)
    (h : visdir v (destName b) = true) (hv : 1 ≤ verbose)
    (hw : wfail (pjoin (pjoin vendordir (destName b)) "metadata.json") b.meta = false) :
    install_loop vendordir true verbose wfail (b :: rest) v =
      ((install_loop vendordir true verbose wfail rest
          (vwrite (vcopy (vdel v (destName b)) (destName b) b.path) (destName b) b.meta)).1,
       (install_loop vendordir true verbose wfail rest
          (vwrite (vcopy (vdel v (destName b)) (destName b) b.path) (destName b) b.meta)).2.1,
       [VEff.deltree (pjoin vendordir (destName b)),
        VEff.copy b.path (pjoin vendordir (destName b)),
        VEff.writeJson (pjoin (pjoin vendordir (destName b)) "metadata.json") b.meta,
        VEff.logInfo "%s installed in vendors",
        VEff.logError ("vendor: " ++ destName b ++ " already installed")] ++
         (install_loop vendordir true verbose wfail rest
            (vwrite (vcopy (vdel v (destName b)) (destName b) b.path) (destName b) b.meta)).2.2) := by
  simp [install_loop, h, hw, ge_iff_le, hv]

/-- Witness for C5 at a concrete input with `ui.verbose = 1`. -/
theorem c5_install_existing_force_witness :
    install_loop "app/vendor" true 1 (fun _ _ => false)
        [{ name := "x", path := "st/x", meta := [("fetch_uri", "u")] }]
        [("x", "old", some [("fetch_uri", "old")])] =
      (.ok (), [("x", "st/x", some [("fetch_uri", "u")])],
       [VEff.deltree "app/vendor/x", VEff.copy "st/x" "app/vendor/x",
        VEff.writeJson "app/vendor/x/metadata.json" [("fetch_uri", "u")],
        VEff.logInfo "%s installed in vendors",
        VEff.logError "vendor: x already installed"]) :=
  c5_install_existing_force "app/vendor" 1 (fun _ _ => false)
    { name := "x", path := "st/x", meta := [("fetch_uri", "u")] } []
    [("x", "old", some [("fetch_uri", "old")])] (by decide) (by decide) rfl

theorem upd_match_none (dest metaf nm : String) (verbose : Nat) :
    ∀ (bs : List VBundle) (v : VDir), (∀ b ∈ bs, b.name ≠ nm) →
      upd_match dest metaf nm verbose bs v = (v, []) := by
  intro bs
  induction bs with
  | nil => intro v h; rfl
  | cons b rest ih =>
      intro v h
      rw [upd_match, if_pos (Ne.symm (h b (List.mem_cons_self b rest)))]
      exact ih v (fun x hx => h x (List.mem_cons_of_mem b hx))

theorem upd_match_first (dest metaf nm : String) (verbose : Nat) (b0 : VBundle)
    (hb0 : b0.name = nm) :
    ∀ (pref suff : List VBundle) (v : VDir), (∀ b ∈ pref, b.name ≠ nm) →
      upd_match dest metaf nm verbose (pref ++ b0 :: suff) v =
        (vwrite (vcopy (vdel v nm) nm b0.path) nm b0.meta,
         [.deltree dest, .copy b0.path dest, .writeJson metaf b0.meta]
           ++ (if verbose ≥ 1 then [VEff.logInfo (nm ++ " updated in vendors")] else [])) := by
  intro pref
  induction pref with
  | nil =>
      intro suff v h
      rw [List.nil_append, upd_match, if_neg (fun hh => hh hb0.symm)]
  | cons b pt ih =>
      intro suff v h
      rw [List.cons_append, upd_match, if_pos (Ne.symm (h b (List.mem_cons_self b pt)))]
      exact ih suff v (fun x hx => h x (List.mem_cons_of_mem b hx))

/-- C6: a single-name update of an installed vendor whose re-fetch succeeds
installs exactly the first returned bundle whose staged name equals the
requested name (old directory deleted, staged contents copied in, metadata
overwritten — lines 191-196), discards bundles of any other name (line 189),
is a silent no-op on the vendor directory when no bundle matches, and deletes
the staging directory in either case (line 198). -/
theorem c6_update_single (appdir nm tmp : String) (verbose : Nat) (vde : Bool)
    (v : VDir) (fetch : String → Except VErr (List VBundle × String))
    (bs : List VBundle)
    (hin : nm ∈ installed_vendors v)
    (huri : ¬ mgetD (vmeta v nm) "fetch_uri" "" = "")
    (hfetch : fetch (mgetD (vmeta v nm) "fetch_uri" "") = .ok (bs, tmp)) :
    (∀ pref b0 suff, bs = pref ++ b0 :: suff → (∀ b ∈ pref, b.name ≠ nm) → b0.name = nm →
      update_single appdir nm verbose fetch vde v =
        (.ok 0, vwrite (vcopy (vdel v nm) nm b0.path) nm b0.meta,
         (if vde then [] else [VEff.makedirs (pjoin appdir "vendor")]) ++
           ([VEff.deltree (pjoin (pjoin appdir "vendor") nm),
             VEff.copy b0.path (pjoin (pjoin appdir "vendor") nm),
             VEff.writeJson (pjoin (pjoin (pjoin appdir "vendor") nm) "metadata.json") b0.meta]
             ++ (if verbose ≥ 1 then [VEff.logInfo (nm ++ " updated in vendors")] else []))
           ++ [VEff.deltree tmp])) ∧
    ((∀ b ∈ bs, b.name ≠ nm) →
      update_single appdir nm verbose fetch vde v =
        (.ok 0, v,
         (if vde then [] else [VEff.makedirs (pjoin appdir "vendor")]) ++ [VEff.deltree tmp])) := by
  constructor
  · intro pref b0 suff hbs hpref hb0
    simp only [update_single, hin, if_true, huri, if_false, hfetch, hbs]
    rw [upd_match_first (pjoin (pjoin appdir "vendor") nm)
      (pjoin (pjoin (pjoin appdir "vendor") nm) "metadata.json") nm verbose b0 hb0 pref suff v hpref]
  · intro hnone
    simp only [update_single, hin, if_true, huri, if_false, hfetch]
    rw [upd_match_none (pjoin (pjoin appdir "vendor") nm)
      (pjoin (pjoin (pjoin appdir "vendor") nm) "metadata.json") nm verbose bs v hnone]
    simp

/-- Witness for C6 at a concrete input: the fetch stages a non-matching
bundle "b" followed by the matching bundle "a". -/
theorem c6_update_single_witness :
    update_single "app" "a" 0 exFetch true exVDir =
      (.ok 0, vwrite (vcopy (vdel exVDir "a") "a" "st/a") "a" [("fetch_uri", "u1")],
       [VEff.deltree "app/vendor/a", VEff.copy "st/a" "app/vendor/a",
        VEff.writeJson "app/vendor/a/metadata.json" [("fetch_uri", "u1")],
        VEff.deltree "tp"]) :=
  (c6_update_single "app" "a" "tp" 0 true exVDir exFetch
      [{ name := "b", path := "st/b", meta := [] },
       { name := "a", path := "st/a", meta := [("fetch_uri", "u1")] }]
      (by decide) (by decide) rfl).1
    [{ name := "b", path := "st/b", meta := [] }]
    { name := "a", path := "st/a", meta := [("fetch_uri", "u1")] } [] rfl (by decide) rfl

/-- C7: a single-name update of an installed vendor whose persisted metadata
has no (or an empty) `fetch_uri` raises `VendorError` ("fetch_uri
undefined.", lines 183-185) with the vendor directory unchanged and an empty
effect trace — nothing is created, deleted, copied or written before the
failure. -/
theorem c7_update_missing_source (appdir nm : String) (verbose : Nat)
    (fetch : String → Except VErr (List VBundle × String)) (v : VDir)
    (hin : nm ∈ installed_vendors v)
    (huri : mgetD (vmeta v nm) "fetch_uri" "" = "") :
    update_single appdir nm verbose fetch true v =
      (.error (.vendorError ("Can\x27t update vendor `" ++ nm ++ "`: fetch_uri undefined.")),
       v, []) := by
  simp [update_single, hin, huri]

/-- Witness for C7 at a concrete input: vendor "a" installed with metadata
lacking `fetch_uri`. -/
theorem c7_update_missing_source_witness :
    update_single "app" "a" 0 exFetch true [("a", "c", some [("other", "x")])] =
      (.error (.vendorError "Can\x27t update vendor `a`: fetch_uri undefined."),
       [("a", "c", some [("other", "x")])], []) :=
  c7_update_missing_source "app" "a" 0 exFetch [("a", "c", some [("other", "x")])]
    (by decide) (by decide)

/-- C8: the spec says a bulk update over installed vendors with distinct
sources performs one fetch-then-staging-cleanup cycle per vendor.  In the
code the very first fetched bundle aborts the run: line 216 reads the local
variable `dest1` before it is ever assigned, raising `UnboundLocalError`, so
with a single installed vendor "a" whose re-fetch stages one bundle the run
crashes with an empty effect trace — in particular the staging directory
"tp" of the one fetch that did start is never deleted. -/
theorem c8_bulk_update_crash :
    update_bulk "app" false 0 bulkFetch true bulkVDir =
      (.error (.unboundLocalError "dest1"), bulkVDir, []) ∧
    VEff.deltree "tp" ∉ (update_bulk "app" false 0 bulkFetch true bulkVDir).2.2 := by
  refine ⟨rfl, ?_⟩
  intro h
  exact List.not_mem_nil _ h

/-- C9 counterexample: an install whose fetch succeeded but whose
`ui.write_json` raises mid-reconciliation propagates the exception without
deleting the staging directory "tp" — there is no `try`/`finally` around
lines 150-168, so the `deltree(temppath)` of line 168 is skipped. -/
theorem c9_counterexample :
    (install "app" false 0 (fun _ _ => true)
        (.ok ([{ name := "w", path := "st/w", meta := [("fetch_uri", "u://w")] }], "tp"))
        true []).1 = .error (.osError "write_json app/vendor/w/metadata.json") ∧
    VEff.deltree "tp" ∉ (install "app" false 0 (fun _ _ => true)
        (.ok ([{ name := "w", path := "st/w", meta := [("fetch_uri", "u://w")] }], "tp"))
        true []).2.2 := by
  exact ⟨rfl, by decide⟩

/-- C9 (amended): when reconciliation completes without an exception, both
install (line 168) and single-name update (line 198) do delete the staging
directory returned by their successful fetch; the guarantee does not extend
to exceptional exits. -/
theorem c9_cleanup_success_paths (appdir : String) (force : Bool) (verbose : Nat)
    (bs : List VBundle) (tmp : String) (vde : Bool) (v : VDir)
    (nm : String) (fetch : String → Except VErr (List VBundle × String)) (v2 : VDir)
    (hin : nm ∈ installed_vendors v2)
    (huri : ¬ mgetD (vmeta v2 nm) "fetch_uri" "" = "")
    (hfetch : fetch (mgetD (vmeta v2 nm) "fetch_uri" "") = .ok (bs, tmp)) :
    VEff.deltree tmp ∈
      (install appdir force verbose (fun _ _ => false) (.ok (bs, tmp)) vde v).2.2 ∧
    VEff.deltree tmp ∈ (update_single appdir nm verbose fetch vde v2).2.2 := by
  constructor
  · have hok := install_loop_ok (pjoin appdir "vendor") force verbose bs v
    simp only [install]
    rcases hloop : install_loop (pjoin appdir "vendor") force verbose (fun _ _ => false) bs v
      with ⟨r1, v1, t⟩
    rw [hloop] at hok
    simp only at hok
    subst hok
    simp
  · simp [update_single, hin, huri, hfetch]

/-- Witness for C9 at a concrete input. -/
theorem c9_cleanup_success_paths_witness :
    VEff.deltree "tp" ∈
      (install "app" false 0 (fun _ _ => false)
        (.ok ([{ name := "b", path := "st/b", meta := [] },
               { name := "a", path := "st/a", meta := [("fetch_uri", "u1")] }], "tp"))
        true []).2.2 ∧
    VEff.deltree "tp" ∈ (update_single "app" "a" 0 exFetch true exVDir).2.2 :=
  c9_cleanup_success_paths "app" false 0
    [{ name := "b", path := "st/b", meta := [] },
     { name := "a", path := "st/a", meta := [("fetch_uri", "u1")] }] "tp" true [] "a" exFetch exVDir
    (by decide) (by decide) rfl
